import Mathlib

/-!
Shallow embedding of the GY521 Arduino driver (`src/libraries/GY521/GY521.cpp`,
library version 0.3.7) and proofs about its sampling, fusion, throttling,
sensitivity-configuration and error-handling behaviour.

Modelling conventions:
* C `float` arithmetic is modelled over `ℝ`; decimal literals are taken at
  their exact rational value.
* The I2C bus is modelled explicitly: each operation receives the outcomes of
  its bus transactions as arguments (`writeOk` for the acknowledgement of the
  register-select write phase, `n` for the byte count delivered by
  `requestFrom`, `bytes` for the burst of received bytes, `resp` for a
  single-register read) and additionally returns the list of transactions it
  issued (`List BusOp`), so that statements about "no bus traffic" and about
  write counts can be made.
* `millis()` / `micros()` values are passed in as arguments; `uint32_t`
  wrap-around subtraction is `sub32`.
* Big-endian decoding of two bus bytes into an `int16_t` (`GY521::_WireRead2`)
  is `wireRead2` built on the two's-complement reinterpretation `toInt16`.
-/

/-- Status code `GY521_OK` (0), from the spec's error taxonomy. -/
def GY521_OK : ℤ := 0

/-- Modelled from the spec: the numeric value of the `GY521_THROTTLED` status
is defined in the header `GY521.h`, which is not part of the sources; only its
distinctness from the other codes matters here. -/
def GY521_THROTTLED : ℤ := 1

/-- Modelled from the spec: numeric value of `GY521_ERROR_READ` (header not in
the sources); only `GY521_ERROR_READ ≠ 0` and distinctness matter here. -/
def GY521_ERROR_READ : ℤ := -1

/-- Modelled from the spec: numeric value of `GY521_ERROR_WRITE` (header not
in the sources); only `GY521_ERROR_WRITE ≠ 0` and distinctness matter here. -/
def GY521_ERROR_WRITE : ℤ := -2

/-- Modelled from the spec: register addresses come from `GY521_registers.h`,
which is not part of the sources; the exact byte values are irrelevant to the
claims, only that each register has a fixed address. -/
def GY521_GYRO_CONFIG : ℕ := 0x1B

/-- Modelled from the spec: accel-config register address (header not in the
sources). -/
def GY521_ACCEL_CONFIG : ℕ := 0x1C

/-- Modelled from the spec: start of the accel data block (header not in the
sources). -/
def GY521_ACCEL_XOUT_H : ℕ := 0x3B

/-- Modelled from the spec: temperature register address (header not in the
sources). -/
def GY521_TEMP_OUT_H : ℕ := 0x41

/-- Modelled from the spec: start of the gyro data block (header not in the
sources). -/
def GY521_GYRO_XOUT_H : ℕ := 0x43

/-- Modelled from the spec: the default throttle interval
`GY521_THROTTLE_TIME` is defined in the header, which is not part of the
sources; the spec says `reset()` sets the interval to "a documented default".
Its concrete value is irrelevant to the claims. -/
def GY521_THROTTLE_TIME : ℕ := 10

/-- `RAD2DEGREES` = `180.0 / PI`. -/
noncomputable def RAD2DEGREES : ℝ := 180 / Real.pi

/-- `RAW2DPS_FACTOR` = `1.0 / 131.0`. -/
noncomputable def RAW2DPS_FACTOR : ℝ := 1 / 131

/-- `RAW2G_FACTOR` = `1.0 / 16384.0`. -/
noncomputable def RAW2G_FACTOR : ℝ := 1 / 16384

/-- Wrap-around difference of two `uint32_t` counter values, as computed by
`now - _lastTime` and `now - _lastMicros` in C. -/
def sub32 (a b : ℕ) : ℕ :=
  (a % 4294967296 + (4294967296 - b % 4294967296)) % 4294967296

/-- Reinterpret the low 16 bits of a value as a signed (two's-complement)
`int16_t`. -/
def toInt16 (v : ℕ) : ℤ :=
  if v % 65536 < 32768 then (v % 65536 : ℤ) else (v % 65536 : ℤ) - 65536

/-- `GY521::_WireRead2`: read two bytes from the bus and concatenate them
big-endian into an `int16_t`. -/
def wireRead2 (hi lo : ℕ) : ℤ := toInt16 ((hi % 256) * 256 + (lo % 256))

/-- Cast an `int16_t`-valued error code through a `uint8_t` return channel
(as `getRegister` and `setRegister`, whose return type is `uint8_t`, do when
they return `_error`). -/
def toUInt8cast (z : ℤ) : ℕ := (z % 256).toNat

/-- One I2C transaction issued by the driver: selecting a register pointer
(`beginTransmission`/`write(reg)`/`endTransmission`), a burst read
(`requestFrom`), or a register write
(`beginTransmission`/`write(reg)`/`write(val)`/`endTransmission`). -/
inductive BusOp where
  | regSelect (reg : ℕ)
  | burstRead (count : ℕ)
  | regWrite (reg val : ℕ)

/-- Outcome of a one-register bus read as performed by `GY521::getRegister`:
either the register-select write is not acknowledged (`writeErr`), or
`requestFrom` does not deliver exactly one byte (`readErr`), or the byte
`val` is delivered. -/
inductive BusResp where
  | ok (val : ℕ)
  | writeErr
  | readErr

/-- The member variables of class `GY521` that the implementation mutates.
Field names are the C++ names without the leading underscore; `axe … gze`
are the calibration offsets (named without underscore in the source too). -/
structure GY521 where
  ax : ℝ
  ay : ℝ
  az : ℝ
  aax : ℝ
  aay : ℝ
  aaz : ℝ
  gx : ℝ
  gy : ℝ
  gz : ℝ
  gax : ℝ
  gay : ℝ
  gaz : ℝ
  pitch : ℝ
  roll : ℝ
  yaw : ℝ
  temperature : ℝ
  axe : ℝ
  aye : ℝ
  aze : ℝ
  gxe : ℝ
  gye : ℝ
  gze : ℝ
  raw2g : ℝ
  raw2dps : ℝ
  afs : ℕ
  gfs : ℕ
  error : ℤ
  throttle : Bool
  throttleTime : ℕ
  lastTime : ℕ
  lastMicros : ℕ

namespace GY521

/-- `GY521::reset`. The call `setThrottleTime(GY521_THROTTLE_TIME)` is
inlined as the field assignment it performs (the setter lives in the header;
per the spec it stores the interval). `reset` does not touch the `gax`,
`gay`, `gaz` accumulators in the source. -/
def reset (s : GY521) : GY521 :=
  { s with throttleTime := GY521_THROTTLE_TIME,
           ax := 0, ay := 0, az := 0,
           aax := 0, aay := 0, aaz := 0,
           gx := 0, gy := 0, gz := 0,
           pitch := 0,
           roll := 0,
           yaw := 0 }

/-- Modelled from the spec: the last-error accessor (declared in the header,
not in the sources) reads the cached error code. -/
def getError (s : GY521) : ℤ := s.error

/-- `GY521::read` (the full 14-byte read). Bus environment: `now` is
`millis()`, `micNow` is `micros()`, `writeOk` is whether `endTransmission`
of the register-select phase returned 0, `n` is the byte count returned by
`requestFrom`, `bytes` are the received bytes in order.

Caveat of the real-number embedding: the tilt quotients are unguarded in
the C source (the spec notes NaN/inf may propagate), and C float division
of zero by zero has no counterpart in `ℝ`, where `x / 0 = 0`. Statements
about concrete tilt, pitch or roll values therefore only use inputs whose
tilt denominators are nonzero, so that the C code computes the same finite
values. -/
noncomputable def read (s : GY521) (now micNow : ℕ) (writeOk : Bool) (n : ℕ)
    (bytes : List ℕ) : ℤ × GY521 × List BusOp :=
  if s.throttle = true ∧ sub32 now s.lastTime < s.throttleTime then
    (GY521_THROTTLED, s, [])
  else
    let s1 := { s with lastTime := now }
    if writeOk = false then
      (GY521_ERROR_WRITE, { s1 with error := GY521_ERROR_WRITE },
        [BusOp.regSelect GY521_ACCEL_XOUT_H])
    else if n ≠ 14 then
      (GY521_ERROR_READ, { s1 with error := GY521_ERROR_READ },
        [BusOp.regSelect GY521_ACCEL_XOUT_H, BusOp.burstRead 14])
    else
      let duration : ℝ := (sub32 micNow s.lastMicros : ℝ) * 1e-6
      let ax1 : ℝ := (wireRead2 (bytes.getD 0 0) (bytes.getD 1 0) : ℝ) * s.raw2g + s.axe
      let ay1 : ℝ := (wireRead2 (bytes.getD 2 0) (bytes.getD 3 0) : ℝ) * s.raw2g + s.aye
      let az1 : ℝ := (wireRead2 (bytes.getD 4 0) (bytes.getD 5 0) : ℝ) * s.raw2g + s.aze
      let aax1 : ℝ := Real.arctan (ay1 / Real.sqrt (ax1 * ax1 + az1 * az1)) * RAD2DEGREES
      let aay1 : ℝ := Real.arctan (-1 * ax1 / Real.sqrt (ay1 * ay1 + az1 * az1)) * RAD2DEGREES
      let aaz1 : ℝ := Real.arctan (az1 / Real.sqrt (ax1 * ax1 + ay1 * ay1)) * RAD2DEGREES
      let temp1 : ℝ := (wireRead2 (bytes.getD 6 0) (bytes.getD 7 0) : ℝ) * 0.00294117647 + 36.53
      let gx1 : ℝ := (wireRead2 (bytes.getD 8 0) (bytes.getD 9 0) : ℝ) * s.raw2dps + s.gxe
      let gy1 : ℝ := (wireRead2 (bytes.getD 10 0) (bytes.getD 11 0) : ℝ) * s.raw2dps + s.gye
      let gz1 : ℝ := (wireRead2 (bytes.getD 12 0) (bytes.getD 13 0) : ℝ) * s.raw2dps + s.gze
      let gax1 : ℝ := s.gax + gx1 * duration
      let gay1 : ℝ := s.gay + gy1 * duration
      let gaz1 : ℝ := s.gaz + gz1 * duration
      (GY521_OK,
        { s1 with ax := ax1, ay := ay1, az := az1,
                  aax := aax1, aay := aay1, aaz := aaz1,
                  temperature := temp1,
                  gx := gx1, gy := gy1, gz := gz1,
                  gax := gax1, gay := gay1, gaz := gaz1,
                  yaw := gaz1,
                  pitch := 0.96 * gay1 + 0.04 * aay1,
                  roll := 0.96 * gax1 + 0.04 * aax1,
                  lastMicros := micNow },
        [BusOp.regSelect GY521_ACCEL_XOUT_H, BusOp.burstRead 14])

/-- `GY521::readAccel` (6-byte accel-only read): acceleration conversion and
tilt angles only; no temperature, gyro or integration-timing update. The
caveat on unguarded tilt quotients stated at `read` applies here too. -/
noncomputable def readAccel (s : GY521) (now : ℕ) (writeOk : Bool) (n : ℕ)
    (bytes : List ℕ) : ℤ × GY521 × List BusOp :=
  if s.throttle = true ∧ sub32 now s.lastTime < s.throttleTime then
    (GY521_THROTTLED, s, [])
  else
    let s1 := { s with lastTime := now }
    if writeOk = false then
      (GY521_ERROR_WRITE, { s1 with error := GY521_ERROR_WRITE },
        [BusOp.regSelect GY521_ACCEL_XOUT_H])
    else if n ≠ 6 then
      (GY521_ERROR_READ, { s1 with error := GY521_ERROR_READ },
        [BusOp.regSelect GY521_ACCEL_XOUT_H, BusOp.burstRead 6])
    else
      let ax1 : ℝ := (wireRead2 (bytes.getD 0 0) (bytes.getD 1 0) : ℝ) * s.raw2g + s.axe
      let ay1 : ℝ := (wireRead2 (bytes.getD 2 0) (bytes.getD 3 0) : ℝ) * s.raw2g + s.aye
      let az1 : ℝ := (wireRead2 (bytes.getD 4 0) (bytes.getD 5 0) : ℝ) * s.raw2g + s.aze
      let aax1 : ℝ := Real.arctan (ay1 / Real.sqrt (ax1 * ax1 + az1 * az1)) * RAD2DEGREES
      let aay1 : ℝ := Real.arctan (-1 * ax1 / Real.sqrt (ay1 * ay1 + az1 * az1)) * RAD2DEGREES
      let aaz1 : ℝ := Real.arctan (az1 / Real.sqrt (ax1 * ax1 + ay1 * ay1)) * RAD2DEGREES
      (GY521_OK,
        { s1 with ax := ax1, ay := ay1, az := az1,
                  aax := aax1, aay := aay1, aaz := aaz1 },
        [BusOp.regSelect GY521_ACCEL_XOUT_H, BusOp.burstRead 6])

/-- `GY521::readGyro` (6-byte gyro-only read): angular-rate conversion and
integration; the source does not recompute `pitch`, `roll` or `yaw` here. -/
noncomputable def readGyro (s : GY521) (now micNow : ℕ) (writeOk : Bool) (n : ℕ)
    (bytes : List ℕ) : ℤ × GY521 × List BusOp :=
  if s.throttle = true ∧ sub32 now s.lastTime < s.throttleTime then
    (GY521_THROTTLED, s, [])
  else
    let s1 := { s with lastTime := now }
    if writeOk = false then
      (GY521_ERROR_WRITE, { s1 with error := GY521_ERROR_WRITE },
        [BusOp.regSelect GY521_GYRO_XOUT_H])
    else if n ≠ 6 then
      (GY521_ERROR_READ, { s1 with error := GY521_ERROR_READ },
        [BusOp.regSelect GY521_GYRO_XOUT_H, BusOp.burstRead 6])
    else
      let duration : ℝ := (sub32 micNow s.lastMicros : ℝ) * 1e-6
      let gx1 : ℝ := (wireRead2 (bytes.getD 0 0) (bytes.getD 1 0) : ℝ) * s.raw2dps + s.gxe
      let gy1 : ℝ := (wireRead2 (bytes.getD 2 0) (bytes.getD 3 0) : ℝ) * s.raw2dps + s.gye
      let gz1 : ℝ := (wireRead2 (bytes.getD 4 0) (bytes.getD 5 0) : ℝ) * s.raw2dps + s.gze
      (GY521_OK,
        { s1 with gx := gx1, gy := gy1, gz := gz1,
                  gax := s.gax + gx1 * duration,
                  gay := s.gay + gy1 * duration,
                  gaz := s.gaz + gz1 * duration,
                  lastMicros := micNow },
        [BusOp.regSelect GY521_GYRO_XOUT_H, BusOp.burstRead 6])

/-- `GY521::readTemperature` (2-byte temperature-only read): never throttled;
the source stores the raw `_WireRead2()` value into `_temperature` without
applying the Celsius conversion. -/
noncomputable def readTemperature (s : GY521) (writeOk : Bool) (n : ℕ)
    (bytes : List ℕ) : ℤ × GY521 × List BusOp :=
  if writeOk = false then
    (GY521_ERROR_WRITE, { s with error := GY521_ERROR_WRITE },
      [BusOp.regSelect GY521_TEMP_OUT_H])
  else if n ≠ 2 then
    (GY521_ERROR_READ, { s with error := GY521_ERROR_READ },
      [BusOp.regSelect GY521_TEMP_OUT_H, BusOp.burstRead 2])
  else
    (GY521_OK,
      { s with temperature := (wireRead2 (bytes.getD 0 0) (bytes.getD 1 0) : ℝ) },
      [BusOp.regSelect GY521_TEMP_OUT_H, BusOp.burstRead 2])

/-- `GY521::getRegister`: on success returns the byte read and leaves the
driver state (including the cached `error`) untouched; on failure caches and
returns the error code (through a `uint8_t` return channel). -/
def getRegister (s : GY521) (reg : ℕ) (resp : BusResp) : ℕ × GY521 × List BusOp :=
  match resp with
  | BusResp.writeErr =>
      (toUInt8cast GY521_ERROR_WRITE, { s with error := GY521_ERROR_WRITE },
        [BusOp.regSelect reg])
  | BusResp.readErr =>
      (toUInt8cast GY521_ERROR_READ, { s with error := GY521_ERROR_READ },
        [BusOp.regSelect reg, BusOp.burstRead 1])
  | BusResp.ok v =>
      (v % 256, s, [BusOp.regSelect reg, BusOp.burstRead 1])

/-- `GY521::setRegister`: a two-byte write transaction; on failure caches and
returns `GY521_ERROR_WRITE` (through a `uint8_t` return channel), on success
returns `GY521_OK` without touching the state. -/
def setRegister (s : GY521) (reg val : ℕ) (writeOk : Bool) : ℕ × GY521 × List BusOp :=
  if writeOk = false then
    (toUInt8cast GY521_ERROR_WRITE, { s with error := GY521_ERROR_WRITE },
      [BusOp.regWrite reg val])
  else
    (0, s, [BusOp.regWrite reg val])

/-- `GY521::setAccelSensitivity`: stores the clamped code into `afs` first,
reads the accel-config register, bails out (keeping `raw2g`) if the cached
error is nonzero, skips the config write when bits 3–4 already match, and
recomputes `raw2g` on success. -/
noncomputable def setAccelSensitivity (s : GY521) (c : ℕ) (resp : BusResp)
    (writeOk : Bool) : Bool × GY521 × List BusOp :=
  let afs1 := if 3 < c then 3 else c
  let g := getRegister { s with afs := afs1 } GY521_ACCEL_CONFIG resp
  let val := g.1
  let s2 := g.2.1
  let t1 := g.2.2
  if s2.error ≠ 0 then (false, s2, t1)
  else if (val >>> 3) &&& 3 ≠ afs1 then
    let val2 := (val &&& 0xE7) ||| (afs1 <<< 3)
    let r := setRegister s2 GY521_ACCEL_CONFIG val2 writeOk
    if r.1 ≠ 0 then (false, r.2.1, t1 ++ r.2.2)
    else (true, { r.2.1 with raw2g := ((1 <<< afs1 : ℕ) : ℝ) * RAW2G_FACTOR }, t1 ++ r.2.2)
  else (true, { s2 with raw2g := ((1 <<< afs1 : ℕ) : ℝ) * RAW2G_FACTOR }, t1)

/-- `GY521::setGyroSensitivity`: mirror image of `setAccelSensitivity` for
the gyro-config register, `gfs` and `raw2dps`. -/
noncomputable def setGyroSensitivity (s : GY521) (c : ℕ) (resp : BusResp)
    (writeOk : Bool) : Bool × GY521 × List BusOp :=
  let gfs1 := if 3 < c then 3 else c
  let g := getRegister { s with gfs := gfs1 } GY521_GYRO_CONFIG resp
  let val := g.1
  let s2 := g.2.1
  let t1 := g.2.2
  if s2.error ≠ 0 then (false, s2, t1)
  else if (val >>> 3) &&& 3 ≠ gfs1 then
    let val2 := (val &&& 0xE7) ||| (gfs1 <<< 3)
    let r := setRegister s2 GY521_GYRO_CONFIG val2 writeOk
    if r.1 ≠ 0 then (false, r.2.1, t1 ++ r.2.2)
    else (true, { r.2.1 with raw2dps := ((1 <<< gfs1 : ℕ) : ℝ) * RAW2DPS_FACTOR }, t1 ++ r.2.2)
  else (true, { s2 with raw2dps := ((1 <<< gfs1 : ℕ) : ℝ) * RAW2DPS_FACTOR }, t1)

end GY521

/-- Predicate picking the register-write transactions out of a bus trace. -/
def isRegWrite : BusOp → Bool
  | BusOp.regWrite _ _ => true
  | _ => false

/-- Number of register-write transactions in a bus trace. -/
def writeCount (t : List BusOp) : ℕ := (t.filter isRegWrite).length

/-- Value of the accel-config register of a fake device with initial content
`dev` after the writes in a bus trace have been applied. -/
def accelCfgAfter (dev : ℕ) (t : List BusOp) : ℕ :=
  t.foldl
    (fun d op =>
      match op with
      | BusOp.regWrite r v => if r = GY521_ACCEL_CONFIG then v else d
      | _ => d)
    dev

/-- A concrete driver state used as test input: all samples, offsets and the
error cache zero, default conversion factors, throttling disabled. -/
noncomputable def s0 : GY521 :=
  { ax := 0, ay := 0, az := 0, aax := 0, aay := 0, aaz := 0,
    gx := 0, gy := 0, gz := 0, gax := 0, gay := 0, gaz := 0,
    pitch := 0, roll := 0, yaw := 0, temperature := 0,
    axe := 0, aye := 0, aze := 0, gxe := 0, gye := 0, gze := 0,
    raw2g := RAW2G_FACTOR, raw2dps := RAW2DPS_FACTOR,
    afs := 0, gfs := 0, error := 0, throttle := false,
    throttleTime := 10, lastTime := 0, lastMicros := 0 }

theorem GY521_ERROR_WRITE_ne_zero : GY521_ERROR_WRITE ≠ 0 := by decide

theorem GY521_ERROR_READ_ne_zero : GY521_ERROR_READ ≠ 0 := by decide

/-- C3: the temperature-only read does not apply the claimed conversion. A
successful `readTemperature` with raw temperature bytes `0x00 0x00` (raw
value 0) stores the raw value `0` in the temperature field, while the claim
requires the stored temperature to be `0 × (1/340) + 36.53 = 36.53` degrees
Celsius: the source omits the Celsius conversion on the temperature-only
path although the full read applies it to the same field. -/
theorem C3_readTemperature_bug :
    (GY521.readTemperature s0 true 2 [0, 0]).1 = GY521_OK
  ∧ (GY521.readTemperature s0 true 2 [0, 0]).2.1.temperature = 0
  ∧ (0 : ℝ) ≠ 0 * (1 / 340) + 36.53 := by
  refine ⟨rfl, ?_, by norm_num⟩
  simp [GY521.readTemperature, wireRead2, toInt16]

/-- C4 counterexample: `reset` does not zero the gyro-integrated angle
accumulators; starting from a state whose accumulator `gax` is `1`, the
accumulator still holds `1` after `reset`. -/
theorem C4_reset_counterexample :
    (GY521.reset { s0 with gax := 1 }).gax = 1 ∧ (1 : ℝ) ≠ 0 :=
  ⟨rfl, by norm_num⟩

/-- C4 (amended): after `reset()` the per-axis acceleration and angular-rate
values, the accelerometer-only tilt angles, and pitch, roll and yaw are all
zero, but the gyro-integrated angle accumulators `gax`, `gay`, `gaz` are
left unchanged. -/
theorem C4_reset_amended (s : GY521) :
    (GY521.reset s).ax = 0 ∧ (GY521.reset s).ay = 0 ∧ (GY521.reset s).az = 0
  ∧ (GY521.reset s).aax = 0 ∧ (GY521.reset s).aay = 0 ∧ (GY521.reset s).aaz = 0
  ∧ (GY521.reset s).gx = 0 ∧ (GY521.reset s).gy = 0 ∧ (GY521.reset s).gz = 0
  ∧ (GY521.reset s).pitch = 0 ∧ (GY521.reset s).roll = 0 ∧ (GY521.reset s).yaw = 0
  ∧ (GY521.reset s).gax = s.gax ∧ (GY521.reset s).gay = s.gay
  ∧ (GY521.reset s).gaz = s.gaz := by
  simp [GY521.reset]

/-- C5 counterexample: with a stale write error cached, a successful
`getRegister` (byte 7 delivered) returns the data and leaves the last-error
accessor reading the stale `GY521_ERROR_WRITE` instead of `GY521_OK`. -/
theorem C5_staleError_counterexample :
    (GY521.getRegister { s0 with error := GY521_ERROR_WRITE }
        GY521_ACCEL_CONFIG (BusResp.ok 7)).1 = 7
  ∧ GY521.getError (GY521.getRegister { s0 with error := GY521_ERROR_WRITE }
        GY521_ACCEL_CONFIG (BusResp.ok 7)).2.1 = GY521_ERROR_WRITE
  ∧ GY521_ERROR_WRITE ≠ GY521_OK :=
  ⟨rfl, rfl, by decide⟩

/-- C5 (amended): the cached last error is overwritten by every failing bus
operation with that operation's error code, but every bus operation that
succeeds (and the throttled skip) leaves it unchanged, so the accessor may
keep reporting a stale error after later successes. Shown exhaustively for
every modeled bus operation on every path: `getRegister` (all three
outcomes), `setRegister` (both outcomes), and `read`, `readAccel`,
`readGyro` and `readTemperature` with arbitrary bus outcomes, where the
result of each read is characterised on all of its paths (throttled,
write-error, read-error, success). -/
theorem C5_error_amended (s : GY521) (reg v : ℕ) (now micNow : ℕ) (wok : Bool)
    (n : ℕ) (bytes : List ℕ) :
    (GY521.getError (GY521.getRegister s reg (BusResp.ok v)).2.1 = s.error
      ∧ GY521.getError (GY521.getRegister s reg BusResp.writeErr).2.1 = GY521_ERROR_WRITE
      ∧ GY521.getError (GY521.getRegister s reg BusResp.readErr).2.1 = GY521_ERROR_READ)
  ∧ (GY521.getError (GY521.setRegister s reg v true).2.1 = s.error
      ∧ GY521.getError (GY521.setRegister s reg v false).2.1 = GY521_ERROR_WRITE)
  ∧ GY521.getError (GY521.read s now micNow wok n bytes).2.1
      = (if s.throttle = true ∧ sub32 now s.lastTime < s.throttleTime then s.error
         else if wok = false then GY521_ERROR_WRITE
         else if n ≠ 14 then GY521_ERROR_READ
         else s.error)
  ∧ GY521.getError (GY521.readAccel s now wok n bytes).2.1
      = (if s.throttle = true ∧ sub32 now s.lastTime < s.throttleTime then s.error
         else if wok = false then GY521_ERROR_WRITE
         else if n ≠ 6 then GY521_ERROR_READ
         else s.error)
  ∧ GY521.getError (GY521.readGyro s now micNow wok n bytes).2.1
      = (if s.throttle = true ∧ sub32 now s.lastTime < s.throttleTime then s.error
         else if wok = false then GY521_ERROR_WRITE
         else if n ≠ 6 then GY521_ERROR_READ
         else s.error)
  ∧ GY521.getError (GY521.readTemperature s wok n bytes).2.1
      = (if wok = false then GY521_ERROR_WRITE
         else if n ≠ 2 then GY521_ERROR_READ
         else s.error) := by
  refine ⟨⟨rfl, rfl, rfl⟩, ⟨rfl, rfl⟩, ?_, ?_, ?_, ?_⟩
  · unfold GY521.read
    split_ifs <;> rfl
  · unfold GY521.readAccel
    split_ifs <;> rfl
  · unfold GY521.readGyro
    split_ifs <;> rfl
  · unfold GY521.readTemperature
    split_ifs <;> rfl

/-- C6 counterexample: a full read that fails with the write error still
updates the throttle timestamp: starting from `lastTime = 0`, the failing
call at `now = 100` leaves `lastTime = 100`, not `0`. -/
theorem C6_lastTime_counterexample :
    (GY521.read s0 100 0 false 0 []).1 = GY521_ERROR_WRITE
  ∧ (GY521.read s0 100 0 false 0 []).2.1.lastTime = 100
  ∧ s0.lastTime = 0 :=
  ⟨rfl, rfl, rfl⟩

/-- C6 (amended): every `read`, `readAccel` or `readGyro` call that passes
the throttle check stores the current `millis()` value into the last-sample
timestamp before the bus transaction, so calls that then fail with the
write or read error update it too; only the throttled skip leaves it
unchanged. -/
theorem C6_lastTime_amended (s : GY521) (now micNow : ℕ) (wok : Bool) (n : ℕ)
    (bytes : List ℕ)
    (h : ¬ (s.throttle = true ∧ sub32 now s.lastTime < s.throttleTime)) :
    (GY521.read s now micNow wok n bytes).2.1.lastTime = now
  ∧ (GY521.readAccel s now wok n bytes).2.1.lastTime = now
  ∧ (GY521.readGyro s now micNow wok n bytes).2.1.lastTime = now := by
  refine ⟨?_, ?_, ?_⟩
  · unfold GY521.read
    rw [if_neg h]
    split_ifs <;> rfl
  · unfold GY521.readAccel
    rw [if_neg h]
    split_ifs <;> rfl
  · unfold GY521.readGyro
    rw [if_neg h]
    split_ifs <;> rfl

/-- C6 witness: the amended timestamp behaviour at concrete inputs, with the
bus transaction failing. -/
theorem C6_lastTime_amended_witness :
    ¬ (s0.throttle = true ∧ sub32 100 s0.lastTime < s0.throttleTime)
  ∧ ((GY521.read s0 100 0 false 0 []).2.1.lastTime = 100
     ∧ (GY521.readAccel s0 100 false 0 []).2.1.lastTime = 100
     ∧ (GY521.readGyro s0 100 0 false 0 []).2.1.lastTime = 100) :=
  ⟨by decide, C6_lastTime_amended s0 100 0 false 0 [] (by decide)⟩

/-- C7: with throttling enabled and the elapsed time since the last accepted
sample below the configured interval, `read`, `readAccel` and `readGyro`
return `GY521_THROTTLED`, issue no bus transaction, and return the state
completely unchanged. -/
theorem C7_throttle_skip (s : GY521) (now micNow : ℕ) (wok : Bool) (n : ℕ)
    (bytes : List ℕ)
    (ht : s.throttle = true) (he : sub32 now s.lastTime < s.throttleTime) :
    GY521.read s now micNow wok n bytes = (GY521_THROTTLED, s, [])
  ∧ GY521.readAccel s now wok n bytes = (GY521_THROTTLED, s, [])
  ∧ GY521.readGyro s now micNow wok n bytes = (GY521_THROTTLED, s, []) := by
  unfold GY521.read GY521.readAccel GY521.readGyro
  simp [ht, he]

/-- C7 witness: the throttle skip at a concrete state and time. -/
theorem C7_throttle_skip_witness :
    ({ s0 with throttle := true } : GY521).throttle = true
  ∧ sub32 5 ({ s0 with throttle := true } : GY521).lastTime
      < ({ s0 with throttle := true } : GY521).throttleTime
  ∧ (GY521.read { s0 with throttle := true } 5 0 true 14 []
        = (GY521_THROTTLED, { s0 with throttle := true }, [])
     ∧ GY521.readAccel { s0 with throttle := true } 5 true 14 []
        = (GY521_THROTTLED, { s0 with throttle := true }, [])
     ∧ GY521.readGyro { s0 with throttle := true } 5 0 true 14 []
        = (GY521_THROTTLED, { s0 with throttle := true }, [])) :=
  ⟨rfl, by decide,
    C7_throttle_skip { s0 with throttle := true } 5 0 true 14 [] rfl (by decide)⟩

set_option maxRecDepth 100000 in
theorem cfgField_roundtrip :
    ∀ v, v < 256 → ∀ a, a < 4 →
      ((v &&& 0xE7) ||| (a <<< 3)) < 256
        ∧ ((((v &&& 0xE7) ||| (a <<< 3)) >>> 3) &&& 3 = a) := by decide

theorem setAccel_ok_skip (s : GY521) (c dev : ℕ) (wok : Bool) (hdev : dev < 256)
    (herr : s.error = 0) (hf : (dev >>> 3) &&& 3 = (if 3 < c then 3 else c)) :
    GY521.setAccelSensitivity s c (BusResp.ok dev) wok
      = (true,
         { s with afs := (if 3 < c then 3 else c),
                  raw2g := ((1 <<< (if 3 < c then 3 else c) : ℕ) : ℝ) * RAW2G_FACTOR },
         [BusOp.regSelect GY521_ACCEL_CONFIG, BusOp.burstRead 1]) := by
  simp [GY521.setAccelSensitivity, GY521.getRegister, Nat.mod_eq_of_lt hdev, herr, hf]

theorem setGyro_ok_skip (s : GY521) (c dev : ℕ) (wok : Bool) (hdev : dev < 256)
    (herr : s.error = 0) (hf : (dev >>> 3) &&& 3 = (if 3 < c then 3 else c)) :
    GY521.setGyroSensitivity s c (BusResp.ok dev) wok
      = (true,
         { s with gfs := (if 3 < c then 3 else c),
                  raw2dps := ((1 <<< (if 3 < c then 3 else c) : ℕ) : ℝ) * RAW2DPS_FACTOR },
         [BusOp.regSelect GY521_GYRO_CONFIG, BusOp.burstRead 1]) := by
  simp [GY521.setGyroSensitivity, GY521.getRegister, Nat.mod_eq_of_lt hdev, herr, hf]

theorem setAccel_ok_write (s : GY521) (c dev : ℕ) (hdev : dev < 256)
    (herr : s.error = 0) (hf : (dev >>> 3) &&& 3 ≠ (if 3 < c then 3 else c)) :
    GY521.setAccelSensitivity s c (BusResp.ok dev) true
      = (true,
         { s with afs := (if 3 < c then 3 else c),
                  raw2g := ((1 <<< (if 3 < c then 3 else c) : ℕ) : ℝ) * RAW2G_FACTOR },
         [BusOp.regSelect GY521_ACCEL_CONFIG, BusOp.burstRead 1,
          BusOp.regWrite GY521_ACCEL_CONFIG
            ((dev &&& 0xE7) ||| ((if 3 < c then 3 else c) <<< 3))]) := by
  simp [GY521.setAccelSensitivity, GY521.getRegister, GY521.setRegister,
    Nat.mod_eq_of_lt hdev, herr, hf]

theorem setAccel_raw2g_of_success (s : GY521) (c : ℕ) (resp : BusResp) (wok : Bool)
    (h : (GY521.setAccelSensitivity s c resp wok).1 = true) :
    (GY521.setAccelSensitivity s c resp wok).2.1.raw2g
      = ((1 <<< (if 3 < c then 3 else c) : ℕ) : ℝ) * RAW2G_FACTOR := by
  rcases resp with v | _ | _ <;>
    simp only [GY521.setAccelSensitivity, GY521.getRegister, GY521.setRegister] at h ⊢ <;>
    split_ifs at h ⊢ <;> simp_all

theorem setGyro_raw2dps_of_success (s : GY521) (c : ℕ) (resp : BusResp) (wok : Bool)
    (h : (GY521.setGyroSensitivity s c resp wok).1 = true) :
    (GY521.setGyroSensitivity s c resp wok).2.1.raw2dps
      = ((1 <<< (if 3 < c then 3 else c) : ℕ) : ℝ) * RAW2DPS_FACTOR := by
  rcases resp with v | _ | _ <;>
    simp only [GY521.setGyroSensitivity, GY521.getRegister, GY521.setRegister] at h ⊢ <;>
    split_ifs at h ⊢ <;> simp_all

/-- C8: for a sensitivity code `c ∈ {0,1,2,3}` (stated as `c ≤ 3`), after a
successful `setAccelSensitivity c` the conversion of raw accelerometer value
16384 yields exactly `(1 <<< c)` g before bias, and after a successful
`setGyroSensitivity c` the conversion of raw gyro value 131 yields
`(1 <<< c)` degrees per second before bias. -/
theorem C8_sensitivity_scale (s : GY521) (c : ℕ) (respA respG : BusResp)
    (wokA wokG : Bool) (hc : c ≤ 3)
    (ha : (GY521.setAccelSensitivity s c respA wokA).1 = true)
    (hg : (GY521.setGyroSensitivity s c respG wokG).1 = true) :
    (16384 : ℝ) * (GY521.setAccelSensitivity s c respA wokA).2.1.raw2g
      = ((1 <<< c : ℕ) : ℝ)
  ∧ (131 : ℝ) * (GY521.setGyroSensitivity s c respG wokG).2.1.raw2dps
      = ((1 <<< c : ℕ) : ℝ) := by
  have h1 := setAccel_raw2g_of_success s c respA wokA ha
  have h2 := setGyro_raw2dps_of_success s c respG wokG hg
  have hcc : (if 3 < c then 3 else c) = c := if_neg (by omega)
  rw [hcc] at h1 h2
  rw [h1, h2, RAW2G_FACTOR, RAW2DPS_FACTOR]
  constructor <;> ring

/-- C8 witness: successful setter calls with code 2 on a concrete state and
a fake device whose config registers read 0. -/
theorem C8_sensitivity_scale_witness :
    (2 ≤ 3
     ∧ (GY521.setAccelSensitivity s0 2 (BusResp.ok 0) true).1 = true
     ∧ (GY521.setGyroSensitivity s0 2 (BusResp.ok 0) true).1 = true)
  ∧ ((16384 : ℝ) * (GY521.setAccelSensitivity s0 2 (BusResp.ok 0) true).2.1.raw2g
        = ((1 <<< 2 : ℕ) : ℝ)
     ∧ (131 : ℝ) * (GY521.setGyroSensitivity s0 2 (BusResp.ok 0) true).2.1.raw2dps
        = ((1 <<< 2 : ℕ) : ℝ)) :=
  ⟨⟨by decide, rfl, rfl⟩,
    C8_sensitivity_scale s0 2 (BusResp.ok 0) (BusResp.ok 0) true true (by decide) rfl rfl⟩

/-- C9: a sensitivity-setter call whose clamped code already matches the
2-bit field (bits 3–4) read back from the config register issues no
config-register write (both setters), and two consecutive
`setAccelSensitivity` calls with the same code against a fake device whose
config byte is `dev` issue at most one write in total. -/
theorem C9_setter_idempotent (s : GY521) (c dev : ℕ) (hdev : dev < 256)
    (herr : s.error = 0) :
    (∀ wok, (dev >>> 3) &&& 3 = (if 3 < c then 3 else c) →
      writeCount (GY521.setAccelSensitivity s c (BusResp.ok dev) wok).2.2 = 0
        ∧ writeCount (GY521.setGyroSensitivity s c (BusResp.ok dev) wok).2.2 = 0)
  ∧ writeCount (GY521.setAccelSensitivity s c (BusResp.ok dev) true).2.2
      + writeCount (GY521.setAccelSensitivity
            (GY521.setAccelSensitivity s c (BusResp.ok dev) true).2.1 c
            (BusResp.ok (accelCfgAfter dev
              (GY521.setAccelSensitivity s c (BusResp.ok dev) true).2.2)) true).2.2
      ≤ 1 := by
  have hm : (if 3 < c then 3 else c) < 4 := by split_ifs <;> omega
  constructor
  · intro wok hf
    rw [setAccel_ok_skip s c dev wok hdev herr hf,
        setGyro_ok_skip s c dev wok hdev herr hf]
    simp [writeCount, isRegWrite]
  · by_cases hf : (dev >>> 3) &&& 3 = (if 3 < c then 3 else c)
    · rw [setAccel_ok_skip s c dev true hdev herr hf]
      have hcfg : accelCfgAfter dev
          [BusOp.regSelect GY521_ACCEL_CONFIG, BusOp.burstRead 1] = dev := rfl
      rw [hcfg, setAccel_ok_skip
            { s with afs := (if 3 < c then 3 else c),
                     raw2g := ((1 <<< (if 3 < c then 3 else c) : ℕ) : ℝ) * RAW2G_FACTOR }
            c dev true hdev herr hf]
      simp [writeCount, isRegWrite]
    · rw [setAccel_ok_write s c dev hdev herr hf]
      have hrt := cfgField_roundtrip dev hdev (if 3 < c then 3 else c) hm
      have hcfg : accelCfgAfter dev
          [BusOp.regSelect GY521_ACCEL_CONFIG, BusOp.burstRead 1,
           BusOp.regWrite GY521_ACCEL_CONFIG
             ((dev &&& 0xE7) ||| ((if 3 < c then 3 else c) <<< 3))]
          = (dev &&& 0xE7) ||| ((if 3 < c then 3 else c) <<< 3) := by
        simp [accelCfgAfter]
      rw [hcfg, setAccel_ok_skip
            { s with afs := (if 3 < c then 3 else c),
                     raw2g := ((1 <<< (if 3 < c then 3 else c) : ℕ) : ℝ) * RAW2G_FACTOR }
            c ((dev &&& 0xE7) ||| ((if 3 < c then 3 else c) <<< 3)) true
            hrt.1 herr hrt.2]
      simp [writeCount, isRegWrite]

/-- C9 witness: the idempotence of the setters at a concrete state, code 2
and fake device byte 0. -/
theorem C9_setter_idempotent_witness :
    (0 < 256 ∧ s0.error = 0)
  ∧ ((∀ wok, (0 >>> 3) &&& 3 = (if 3 < (2 : ℕ) then 3 else 2) →
        writeCount (GY521.setAccelSensitivity s0 2 (BusResp.ok 0) wok).2.2 = 0
          ∧ writeCount (GY521.setGyroSensitivity s0 2 (BusResp.ok 0) wok).2.2 = 0)
     ∧ writeCount (GY521.setAccelSensitivity s0 2 (BusResp.ok 0) true).2.2
        + writeCount (GY521.setAccelSensitivity
              (GY521.setAccelSensitivity s0 2 (BusResp.ok 0) true).2.1 2
              (BusResp.ok (accelCfgAfter 0
                (GY521.setAccelSensitivity s0 2 (BusResp.ok 0) true).2.2)) true).2.2
        ≤ 1) :=
  ⟨⟨by decide, rfl⟩, C9_setter_idempotent s0 2 0 (by decide) rfl⟩

/-- C10: when the config-register read inside a sensitivity setter fails
with a bus error, the call returns `false` and leaves the scale factor
unchanged, but the cached sensitivity code has already been overwritten
with the clamped argument — the failed call is not atomic on the driver
state. -/
theorem C10_setter_nonatomic (s : GY521) (c : ℕ) (resp : BusResp) (wok : Bool)
    (h : resp = BusResp.writeErr ∨ resp = BusResp.readErr) :
    ((GY521.setAccelSensitivity s c resp wok).1 = false
      ∧ (GY521.setAccelSensitivity s c resp wok).2.1.raw2g = s.raw2g
      ∧ (GY521.setAccelSensitivity s c resp wok).2.1.afs = (if 3 < c then 3 else c))
  ∧ ((GY521.setGyroSensitivity s c resp wok).1 = false
      ∧ (GY521.setGyroSensitivity s c resp wok).2.1.raw2dps = s.raw2dps
      ∧ (GY521.setGyroSensitivity s c resp wok).2.1.gfs = (if 3 < c then 3 else c)) := by
  rcases h with h | h <;> subst h <;>
    simp [GY521.setAccelSensitivity, GY521.setGyroSensitivity, GY521.getRegister,
      GY521_ERROR_WRITE_ne_zero, GY521_ERROR_READ_ne_zero]

/-- C10 witness: the non-atomic failed setter calls at a concrete state with
argument 9 (clamped to 3) and a failing register-select write. -/
theorem C10_setter_nonatomic_witness :
    (BusResp.writeErr = BusResp.writeErr ∨ BusResp.writeErr = BusResp.readErr)
  ∧ (((GY521.setAccelSensitivity s0 9 BusResp.writeErr true).1 = false
      ∧ (GY521.setAccelSensitivity s0 9 BusResp.writeErr true).2.1.raw2g = s0.raw2g
      ∧ (GY521.setAccelSensitivity s0 9 BusResp.writeErr true).2.1.afs
          = (if 3 < (9 : ℕ) then 3 else 9))
     ∧ ((GY521.setGyroSensitivity s0 9 BusResp.writeErr true).1 = false
      ∧ (GY521.setGyroSensitivity s0 9 BusResp.writeErr true).2.1.raw2dps = s0.raw2dps
      ∧ (GY521.setGyroSensitivity s0 9 BusResp.writeErr true).2.1.gfs
          = (if 3 < (9 : ℕ) then 3 else 9))) :=
  ⟨Or.inl rfl, C10_setter_nonatomic s0 9 BusResp.writeErr true (Or.inl rfl)⟩

/-- C1 (amended): after a successful full read the fused outputs satisfy
`yaw = gaz`, `pitch = 0.96·gay + 0.04·aay` and `roll = 0.96·gax + 0.04·aax`:
pitch pairs with the Y-named gyro-integrated angle and Y-named tilt angle,
and roll with the X-named ones (the opposite pairing to the claim). -/
theorem C1_fusion_axes_amended (s : GY521) (now micNow : ℕ) (wok : Bool) (n : ℕ)
    (bytes : List ℕ) (h : (GY521.read s now micNow wok n bytes).1 = GY521_OK) :
    (GY521.read s now micNow wok n bytes).2.1.yaw
      = (GY521.read s now micNow wok n bytes).2.1.gaz
  ∧ (GY521.read s now micNow wok n bytes).2.1.pitch
      = 0.96 * (GY521.read s now micNow wok n bytes).2.1.gay
        + 0.04 * (GY521.read s now micNow wok n bytes).2.1.aay
  ∧ (GY521.read s now micNow wok n bytes).2.1.roll
      = 0.96 * (GY521.read s now micNow wok n bytes).2.1.gax
        + 0.04 * (GY521.read s now micNow wok n bytes).2.1.aax := by
  unfold GY521.read at h ⊢
  split_ifs at h ⊢
  · norm_num [GY521_THROTTLED, GY521_OK] at h
  · norm_num [GY521_ERROR_WRITE, GY521_OK] at h
  · norm_num [GY521_ERROR_READ, GY521_OK] at h
  · exact ⟨rfl, rfl, rfl⟩

/-- C1 witness: the amended fusion equations at a concrete successful full
read (accel raw values 0, 16384, 16384, so every tilt denominator is
nonzero; Y gyro raw 131, one second of integration). -/
theorem C1_fusion_axes_amended_witness :
    (GY521.read s0 1000 1000000 true 14
        [0, 0, 64, 0, 64, 0, 0, 0, 0, 0, 0, 131, 0, 0]).1 = GY521_OK
  ∧ ((GY521.read s0 1000 1000000 true 14
        [0, 0, 64, 0, 64, 0, 0, 0, 0, 0, 0, 131, 0, 0]).2.1.yaw
      = (GY521.read s0 1000 1000000 true 14
        [0, 0, 64, 0, 64, 0, 0, 0, 0, 0, 0, 131, 0, 0]).2.1.gaz
    ∧ (GY521.read s0 1000 1000000 true 14
        [0, 0, 64, 0, 64, 0, 0, 0, 0, 0, 0, 131, 0, 0]).2.1.pitch
      = 0.96 * (GY521.read s0 1000 1000000 true 14
        [0, 0, 64, 0, 64, 0, 0, 0, 0, 0, 0, 131, 0, 0]).2.1.gay
        + 0.04 * (GY521.read s0 1000 1000000 true 14
        [0, 0, 64, 0, 64, 0, 0, 0, 0, 0, 0, 131, 0, 0]).2.1.aay
    ∧ (GY521.read s0 1000 1000000 true 14
        [0, 0, 64, 0, 64, 0, 0, 0, 0, 0, 0, 131, 0, 0]).2.1.roll
      = 0.96 * (GY521.read s0 1000 1000000 true 14
        [0, 0, 64, 0, 64, 0, 0, 0, 0, 0, 0, 131, 0, 0]).2.1.gax
        + 0.04 * (GY521.read s0 1000 1000000 true 14
        [0, 0, 64, 0, 64, 0, 0, 0, 0, 0, 0, 131, 0, 0]).2.1.aax) :=
  ⟨rfl, C1_fusion_axes_amended s0 1000 1000000 true 14
    [0, 0, 64, 0, 64, 0, 0, 0, 0, 0, 0, 131, 0, 0] rfl⟩

/-- C1 counterexample: a concrete successful full read with accel raw
values 0, 16384, 16384 (so every tilt quotient has a nonzero denominator
and the C float code computes the same finite values: tilt aax = 45, tilt
aay = 0), Y gyro raw 131 and one second of integration. The produced pitch
is `0.96·1 + 0.04·0 = 0.96`, fed by the Y-named gyro integral and tilt,
while the combination the claim prescribes — 0.96 times the X-axis
gyro-integrated angle plus 0.04 times the X-named tilt angle — evaluates
to `0.96·0 + 0.04·45 = 1.8`. -/
theorem C1_fusion_axis_counterexample :
    (GY521.read s0 1000 1000000 true 14
        [0, 0, 64, 0, 64, 0, 0, 0, 0, 0, 0, 131, 0, 0]).1 = GY521_OK
  ∧ (GY521.read s0 1000 1000000 true 14
        [0, 0, 64, 0, 64, 0, 0, 0, 0, 0, 0, 131, 0, 0]).2.1.pitch
      ≠ 0.96 * (GY521.read s0 1000 1000000 true 14
            [0, 0, 64, 0, 64, 0, 0, 0, 0, 0, 0, 131, 0, 0]).2.1.gax
        + 0.04 * (GY521.read s0 1000 1000000 true 14
            [0, 0, 64, 0, 64, 0, 0, 0, 0, 0, 0, 131, 0, 0]).2.1.aax := by
  have h45 : Real.pi / 4 * RAD2DEGREES = 45 := by
    rw [RAD2DEGREES]
    field_simp
    ring
  have ed : sub32 1000000 s0.lastMicros = 1000000 := by decide
  have hth : s0.throttle = false := rfl
  have hg : s0.raw2g = 1 / 16384 := rfl
  have hd : s0.raw2dps = 1 / 131 := rfl
  have hb1 : s0.axe = 0 := rfl
  have hb2 : s0.aye = 0 := rfl
  have hb3 : s0.aze = 0 := rfl
  have hb4 : s0.gxe = 0 := rfl
  have hb5 : s0.gye = 0 := rfl
  have hb6 : s0.gze = 0 := rfl
  have ha1 : s0.gax = 0 := rfl
  have ha2 : s0.gay = 0 := rfl
  have ha3 : s0.gaz = 0 := rfl
  constructor
  · rfl
  · unfold GY521.read
    norm_num [wireRead2, toInt16, ed, hth, hg, hd, hb1, hb2, hb3, hb4, hb5, hb6,
      ha1, ha2, ha3, Real.sqrt_one, Real.arctan_zero, h45]

/-- C2 (amended): a successful gyro-only read performs the angular-rate
conversion and the gyro integration (using and updating the shared timing
reference), but does not perform the complementary-filter fusion: pitch,
roll and yaw are left unchanged. -/
theorem C2_readGyro_amended (s : GY521) (now micNow : ℕ) (wok : Bool) (n : ℕ)
    (bytes : List ℕ) (h : (GY521.readGyro s now micNow wok n bytes).1 = GY521_OK) :
    ((GY521.readGyro s now micNow wok n bytes).2.1.pitch = s.pitch
      ∧ (GY521.readGyro s now micNow wok n bytes).2.1.roll = s.roll
      ∧ (GY521.readGyro s now micNow wok n bytes).2.1.yaw = s.yaw)
  ∧ ((GY521.readGyro s now micNow wok n bytes).2.1.gx
        = (wireRead2 (bytes.getD 0 0) (bytes.getD 1 0) : ℝ) * s.raw2dps + s.gxe
      ∧ (GY521.readGyro s now micNow wok n bytes).2.1.gy
        = (wireRead2 (bytes.getD 2 0) (bytes.getD 3 0) : ℝ) * s.raw2dps + s.gye
      ∧ (GY521.readGyro s now micNow wok n bytes).2.1.gz
        = (wireRead2 (bytes.getD 4 0) (bytes.getD 5 0) : ℝ) * s.raw2dps + s.gze)
  ∧ ((GY521.readGyro s now micNow wok n bytes).2.1.gax
        = s.gax + ((wireRead2 (bytes.getD 0 0) (bytes.getD 1 0) : ℝ) * s.raw2dps + s.gxe)
            * ((sub32 micNow s.lastMicros : ℝ) * 1e-6)
      ∧ (GY521.readGyro s now micNow wok n bytes).2.1.gay
        = s.gay + ((wireRead2 (bytes.getD 2 0) (bytes.getD 3 0) : ℝ) * s.raw2dps + s.gye)
            * ((sub32 micNow s.lastMicros : ℝ) * 1e-6)
      ∧ (GY521.readGyro s now micNow wok n bytes).2.1.gaz
        = s.gaz + ((wireRead2 (bytes.getD 4 0) (bytes.getD 5 0) : ℝ) * s.raw2dps + s.gze)
            * ((sub32 micNow s.lastMicros : ℝ) * 1e-6)
      ∧ (GY521.readGyro s now micNow wok n bytes).2.1.lastMicros = micNow) := by
  unfold GY521.readGyro at h ⊢
  split_ifs at h ⊢
  · norm_num [GY521_THROTTLED, GY521_OK] at h
  · norm_num [GY521_ERROR_WRITE, GY521_OK] at h
  · norm_num [GY521_ERROR_READ, GY521_OK] at h
  · exact ⟨⟨rfl, rfl, rfl⟩, ⟨rfl, rfl, rfl⟩, rfl, rfl, rfl, rfl⟩

/-- C2 witness: the amended gyro-only behaviour at a concrete successful
`readGyro` call. -/
theorem C2_readGyro_amended_witness :
    (GY521.readGyro s0 7 1000000 true 6 [0, 0, 0, 131, 0, 0]).1 = GY521_OK
  ∧ (((GY521.readGyro s0 7 1000000 true 6 [0, 0, 0, 131, 0, 0]).2.1.pitch = s0.pitch
      ∧ (GY521.readGyro s0 7 1000000 true 6 [0, 0, 0, 131, 0, 0]).2.1.roll = s0.roll
      ∧ (GY521.readGyro s0 7 1000000 true 6 [0, 0, 0, 131, 0, 0]).2.1.yaw = s0.yaw)
    ∧ ((GY521.readGyro s0 7 1000000 true 6 [0, 0, 0, 131, 0, 0]).2.1.gx
          = (wireRead2 (([0, 0, 0, 131, 0, 0] : List ℕ).getD 0 0)
              (([0, 0, 0, 131, 0, 0] : List ℕ).getD 1 0) : ℝ) * s0.raw2dps + s0.gxe
        ∧ (GY521.readGyro s0 7 1000000 true 6 [0, 0, 0, 131, 0, 0]).2.1.gy
          = (wireRead2 (([0, 0, 0, 131, 0, 0] : List ℕ).getD 2 0)
              (([0, 0, 0, 131, 0, 0] : List ℕ).getD 3 0) : ℝ) * s0.raw2dps + s0.gye
        ∧ (GY521.readGyro s0 7 1000000 true 6 [0, 0, 0, 131, 0, 0]).2.1.gz
          = (wireRead2 (([0, 0, 0, 131, 0, 0] : List ℕ).getD 4 0)
              (([0, 0, 0, 131, 0, 0] : List ℕ).getD 5 0) : ℝ) * s0.raw2dps + s0.gze)
    ∧ ((GY521.readGyro s0 7 1000000 true 6 [0, 0, 0, 131, 0, 0]).2.1.gax
          = s0.gax + ((wireRead2 (([0, 0, 0, 131, 0, 0] : List ℕ).getD 0 0)
              (([0, 0, 0, 131, 0, 0] : List ℕ).getD 1 0) : ℝ) * s0.raw2dps + s0.gxe)
              * ((sub32 1000000 s0.lastMicros : ℝ) * 1e-6)
        ∧ (GY521.readGyro s0 7 1000000 true 6 [0, 0, 0, 131, 0, 0]).2.1.gay
          = s0.gay + ((wireRead2 (([0, 0, 0, 131, 0, 0] : List ℕ).getD 2 0)
              (([0, 0, 0, 131, 0, 0] : List ℕ).getD 3 0) : ℝ) * s0.raw2dps + s0.gye)
              * ((sub32 1000000 s0.lastMicros : ℝ) * 1e-6)
        ∧ (GY521.readGyro s0 7 1000000 true 6 [0, 0, 0, 131, 0, 0]).2.1.gaz
          = s0.gaz + ((wireRead2 (([0, 0, 0, 131, 0, 0] : List ℕ).getD 4 0)
              (([0, 0, 0, 131, 0, 0] : List ℕ).getD 5 0) : ℝ) * s0.raw2dps + s0.gze)
              * ((sub32 1000000 s0.lastMicros : ℝ) * 1e-6)
        ∧ (GY521.readGyro s0 7 1000000 true 6 [0, 0, 0, 131, 0, 0]).2.1.lastMicros
            = 1000000)) :=
  ⟨rfl, C2_readGyro_amended s0 7 1000000 true 6 [0, 0, 0, 131, 0, 0] rfl⟩

/-- C2 counterexample: a concrete successful `readGyro` call after which
pitch still holds its old value 5 instead of the fused value
`0.96·gay + 0.04·aay = 4` that the claim requires: `readGyro` performs no
complementary-filter fusion of the fused outputs. -/
theorem C2_readGyro_counterexample :
    (GY521.readGyro { s0 with aay := 100, pitch := 5 } 7 1000000 true 6
        [0, 0, 0, 0, 0, 0]).1 = GY521_OK
  ∧ (GY521.readGyro { s0 with aay := 100, pitch := 5 } 7 1000000 true 6
        [0, 0, 0, 0, 0, 0]).2.1.pitch
      ≠ 0.96 * (GY521.readGyro { s0 with aay := 100, pitch := 5 } 7 1000000 true 6
            [0, 0, 0, 0, 0, 0]).2.1.gay
        + 0.04 * (GY521.readGyro { s0 with aay := 100, pitch := 5 } 7 1000000 true 6
            [0, 0, 0, 0, 0, 0]).2.1.aay := by
  have hth : s0.throttle = false := rfl
  have ha2 : s0.gay = 0 := rfl
  have hb5 : s0.gye = 0 := rfl
  constructor
  · rfl
  · unfold GY521.readGyro
    norm_num [wireRead2, toInt16, hth, ha2, hb5]
